import Mathlib

/-!
# Verification of the jutge-driver-std execution harness

Shallow embedding of the two C++ harness files of this repository:

* `src/std/etc/PRO2/__judge_main.cc` — the *EntryRedirectHarness*: a `main`
  that configures stdio, calls the renamed submission entry point `main__2`
  inside a try block, and classifies escaping exceptions through a catch
  cascade (`bad_alloc` → `raise(SIGUSR1)`, `exception` → `raise(SIGUSR2)`,
  `...` → `raise(SIGUSR2)`).  After a `raise` in a catch branch control falls
  off the end of `main`, which in C++ is an implicit `return 0`.

* `src/std/etc/cc/stub.cc` — the *TerminationHookHarness*: a `noexcept`
  terminate handler `jutge__stub__on_terminate` that rethrows the current
  exception (if any) into the same catch cascade and otherwise, or after a
  `raise` that returns, falls through to `std::_Exit(0)`; plus a pre-main
  initializer `jutge__stub__before_main` that installs the handler and applies
  the same stdio configuration.

C++ exception objects are modelled by their catchability: whether the dynamic
type derives from `std::bad_alloc` and whether it derives from
`std::exception`.  Non-class thrown values (`throw 42;`) are a separate
constructor; they are caught only by `catch (...)`.  Signal delivery is
modelled by a disposition map: the POSIX default action for `SIGUSR1` and
`SIGUSR2` terminates the process, while an ignored (or handled-and-returning)
disposition makes `raise` return to its caller.
-/

/-- The two signals used by the harnesses. -/
inductive Signal
  | SIGUSR1
  | SIGUSR2
deriving DecidableEq, Repr

/-- Disposition of a signal at the time `raise` is called: `fatal` is the
POSIX default action for `SIGUSR1`/`SIGUSR2` (terminate the process);
`ignored` makes `raise` return (this also models a handler that returns). -/
inductive Disposition
  | fatal
  | ignored
deriving DecidableEq, Repr

/-- Outcome of a call to `raise(s)` under a given disposition map. -/
inductive RaiseOutcome
  | terminatedProcess
  | returned
deriving DecidableEq, Repr

/-- `raise(s)`: with the fatal (default) disposition the process ends at this
call; otherwise the call returns. -/
def raiseCall (disp : Signal → Disposition) (s : Signal) : RaiseOutcome :=
  match disp s with
  | Disposition.fatal => RaiseOutcome.terminatedProcess
  | Disposition.ignored => RaiseOutcome.returned

/-- Catchability of a C++ exception object: whether its dynamic type derives
from `std::bad_alloc`, and whether it derives from `std::exception`. -/
structure ExcClass where
  derivesBadAlloc : Bool
  derivesStdException : Bool
deriving DecidableEq, Repr

/-- A thrown C++ value: either an object of some class type (described by its
catchability) or a non-class value such as `throw 42;`, which only
`catch (...)` matches. -/
inductive Thrown
  | excObj (c : ExcClass)
  | scalar (v : Int)
deriving DecidableEq, Repr

/-- Does `catch (std::bad_alloc&)` match this thrown value? -/
def catchesBadAlloc : Thrown → Bool
  | Thrown.excObj c => c.derivesBadAlloc
  | Thrown.scalar _ => false

/-- Does `catch (std::exception&)` match this thrown value? -/
def catchesStdException : Thrown → Bool
  | Thrown.excObj c => c.derivesStdException
  | Thrown.scalar _ => false

/-- Stack unwinding through `d` intermediate frames that contain no handler:
each frame passes the in-flight exception object along unchanged. -/
def propagate : Nat → Thrown → Thrown
  | 0, t => t
  | d + 1, t => propagate d t

/-- The observable stdio configuration touched by both harnesses: the
`sync_with_stdio` flag and the stream `cin` is tied to (`none` after
`cin.tie(0)`; abstract stream identities are numbered). -/
structure IOState where
  syncWithStdio : Bool
  cinTie : Option Nat
deriving DecidableEq, Repr

/-- `std::ios_base::sync_with_stdio(b)`: sets the flag, returns its previous
value (both call sites discard the return value). -/
def sync_with_stdio (b : Bool) (s : IOState) : Bool × IOState :=
  (s.syncWithStdio, { s with syncWithStdio := b })

/-- `std::cin.tie(p)`: sets the tied stream, returns the previously tied
stream (both call sites discard the return value). -/
def cin_tie (p : Option Nat) (s : IOState) : Option Nat × IOState :=
  (s.cinTie, { s with cinTie := p })

/-- The I/O desynchronization configuration applied by both harnesses:
`sync_with_stdio(false); cin.tie(0);` (lines 16–17 of `__judge_main.cc` and
lines 34–35 of `stub.cc`). -/
def ioSetup (s : IOState) : IOState :=
  let r1 := sync_with_stdio false s
  let r2 := cin_tie none r1.2
  r2.2

/-- Behaviour of the submission as seen from a harness boundary: either its
entry point returns normally with value `v`, or a value is thrown and escapes
uncaught through `d` stack frames. -/
inductive SubBehavior
  | returns (v : Int)
  | throwsAt (d : Nat) (t : Thrown)
deriving DecidableEq, Repr

/-- How the entry-redirect `main` finishes: by returning a value to the
loader, or because a `raise` inside it terminated the process. -/
inductive MainResult
  | returned (v : Int)
  | killed (s : Signal)
deriving DecidableEq, Repr

/-- The signal selected by the catch cascade of `main` in `__judge_main.cc`
(lines 21–27): `bad_alloc` → `SIGUSR1`, `exception` → `SIGUSR2`,
`...` → `SIGUSR2`. -/
def judgeMainClassify (t : Thrown) : Signal :=
  if catchesBadAlloc t then Signal.SIGUSR1
  else if catchesStdException t then Signal.SIGUSR2
  else Signal.SIGUSR2

/-- Embedding of `main` of `src/std/etc/PRO2/__judge_main.cc`.  It applies the
stdio configuration, runs `main__2` in a try block, and on an escaping
exception runs the catch cascade.  A catch branch calls `raise`; if that call
returns, control falls off the end of `main`, which in C++ is an implicit
`return 0`.  The result lists the signals raised during the call together
with the final `IOState` and how `main` finished. -/
def judge_main (disp : Signal → Disposition) (io : IOState)
    (beh : SubBehavior) : IOState × List Signal × MainResult :=
  let io2 := ioSetup io
  match beh with
  | SubBehavior.returns v => (io2, [], MainResult.returned v)
  | SubBehavior.throwsAt d t =>
      let e := propagate d t
      if catchesBadAlloc e then
        match raiseCall disp Signal.SIGUSR1 with
        | RaiseOutcome.terminatedProcess =>
            (io2, [Signal.SIGUSR1], MainResult.killed Signal.SIGUSR1)
        | RaiseOutcome.returned =>
            (io2, [Signal.SIGUSR1], MainResult.returned 0)
      else if catchesStdException e then
        match raiseCall disp Signal.SIGUSR2 with
        | RaiseOutcome.terminatedProcess =>
            (io2, [Signal.SIGUSR2], MainResult.killed Signal.SIGUSR2)
        | RaiseOutcome.returned =>
            (io2, [Signal.SIGUSR2], MainResult.returned 0)
      else
        match raiseCall disp Signal.SIGUSR2 with
        | RaiseOutcome.terminatedProcess =>
            (io2, [Signal.SIGUSR2], MainResult.killed Signal.SIGUSR2)
        | RaiseOutcome.returned =>
            (io2, [Signal.SIGUSR2], MainResult.returned 0)

/-- The process-level termination corresponding to how `main` finished:
returning `v` to the loader makes the process exit with status `v`. -/
inductive Termination
  | exited (v : Int)
  | killedBy (s : Signal)
  | aborted
deriving DecidableEq, Repr

/-- Map a `MainResult` to the process termination observed by the
orchestrator. -/
def mainTermination : MainResult → Termination
  | MainResult.returned v => Termination.exited v
  | MainResult.killed s => Termination.killedBy s

/-- Orchestrator-visible outcome of a run under the EntryRedirectHarness:
the signals raised and the process termination. -/
def judgeMainObs (disp : Signal → Disposition) (io : IOState)
    (beh : SubBehavior) : List Signal × Termination :=
  let r := judge_main disp io beh
  (r.2.1, mainTermination r.2.2)

/-- The signal selected by the catch cascade of `jutge__stub__on_terminate`
in `stub.cc` (lines 15–21): `bad_alloc` → `SIGUSR1`, `exception` → `SIGUSR2`,
`...` → `SIGUSR2`. -/
def stubClassify (t : Thrown) : Signal :=
  if catchesBadAlloc t then Signal.SIGUSR1
  else if catchesStdException t then Signal.SIGUSR2
  else Signal.SIGUSR2

/-- How an invocation of the terminate hook ends: the process terminated
during the call, or (hypothetically) the hook returned to its caller.  The
second constructor makes the never-returns property statable. -/
inductive HookResult
  | processEnded (t : Termination)
  | returnedToCaller
deriving DecidableEq, Repr

/-- Embedding of `jutge__stub__on_terminate` of `src/std/etc/cc/stub.cc`.
`cur` is `std::current_exception()`.  If an exception is in flight it is
rethrown into the catch cascade; a catch branch calls `raise`, and if that
call returns, control leaves the `if` and reaches `std::_Exit(0)`.  If no
exception is in flight, control reaches `std::_Exit(0)` directly. -/
def jutge__stub__on_terminate (disp : Signal → Disposition)
    (cur : Option Thrown) : List Signal × HookResult :=
  match cur with
  | some exc =>
      if catchesBadAlloc exc then
        match raiseCall disp Signal.SIGUSR1 with
        | RaiseOutcome.terminatedProcess =>
            ([Signal.SIGUSR1], HookResult.processEnded (Termination.killedBy Signal.SIGUSR1))
        | RaiseOutcome.returned =>
            ([Signal.SIGUSR1], HookResult.processEnded (Termination.exited 0))
      else if catchesStdException exc then
        match raiseCall disp Signal.SIGUSR2 with
        | RaiseOutcome.terminatedProcess =>
            ([Signal.SIGUSR2], HookResult.processEnded (Termination.killedBy Signal.SIGUSR2))
        | RaiseOutcome.returned =>
            ([Signal.SIGUSR2], HookResult.processEnded (Termination.exited 0))
      else
        match raiseCall disp Signal.SIGUSR2 with
        | RaiseOutcome.terminatedProcess =>
            ([Signal.SIGUSR2], HookResult.processEnded (Termination.killedBy Signal.SIGUSR2))
        | RaiseOutcome.returned =>
            ([Signal.SIGUSR2], HookResult.processEnded (Termination.exited 0))
  | none => ([], HookResult.processEnded (Termination.exited 0))

/-- Process-global runtime state touched by the pre-main initializer of
`stub.cc`: whether the terminate handler is installed, and the stdio
configuration. -/
structure RuntimeState where
  terminateHookInstalled : Bool
  io : IOState
deriving DecidableEq, Repr

/-- Embedding of the pre-main initializer of `stub.cc` (the lambda whose
result is stored in the constant `jutge__stub__before_main`): it installs the
terminate handler via `std::set_terminate`, applies the stdio configuration,
and evaluates to `999`. -/
def jutge__stub__before_main (rs : RuntimeState) : Int × RuntimeState :=
  let rs1 : RuntimeState := { rs with terminateHookInstalled := true }
  let rs2 : RuntimeState := { rs1 with io := ioSetup rs1.io }
  (999, rs2)

/-- Orchestrator-visible outcome of a run under the TerminationHookHarness:
if the submission returns `v`, the process exits with status `v` without the
hook firing; if a thrown value escapes all frames, the runtime invokes the
terminate hook with the in-flight exception.  A terminate handler that
returned would make the runtime abort. -/
def stubHarnessObs (disp : Signal → Disposition)
    (beh : SubBehavior) : List Signal × Termination :=
  match beh with
  | SubBehavior.returns v => ([], Termination.exited v)
  | SubBehavior.throwsAt d t =>
      match jutge__stub__on_terminate disp (some (propagate d t)) with
      | (tr, HookResult.processEnded term) => (tr, term)
      | (tr, HookResult.returnedToCaller) => (tr, Termination.aborted)

/-- The POSIX default dispositions: `SIGUSR1` and `SIGUSR2` terminate. -/
def defaultDisp : Signal → Disposition := fun _ => Disposition.fatal

/-- A disposition map under which every `raise` returns to its caller. -/
def ignoreAll : Signal → Disposition := fun _ => Disposition.ignored

/-- An exception object of dynamic type `std::bad_alloc` (derives from both
`std::bad_alloc` and `std::exception`). -/
def badAllocExc : Thrown := Thrown.excObj ⟨true, true⟩

/-- A stdio state as it is before any configuration: synchronized with stdio,
`cin` tied to `cout` (stream number 0). -/
def initialIOState : IOState := ⟨true, some 0⟩

/-- At most one termination event: either no signal was raised and the
process exited normally, or exactly one signal was raised and the process
terminated by that very signal. -/
def singleTermEvent (r : List Signal × Termination) : Prop :=
  (r.1 = [] ∧ ∃ v, r.2 = Termination.exited v) ∨
  (∃ s, r.1 = [s] ∧ r.2 = Termination.killedBy s)

/-- Unwinding through handler-free frames does not change the thrown value. -/
theorem propagate_eq (d : Nat) (t : Thrown) : propagate d t = t := by
  induction d with
  | zero => rfl
  | succ d ih => simpa [propagate] using ih

/-- Both catch cascades run after unwinding, so both see the thrown value
unchanged; this lemma reduces a run on `throwsAt d t` to the cascade on `t`. -/
theorem judge_main_throw (disp : Signal → Disposition) (io : IOState)
    (d : Nat) (t : Thrown) :
    judge_main disp io (SubBehavior.throwsAt d t)
      = judge_main disp io (SubBehavior.throwsAt 0 t) := by
  simp [judge_main, propagate_eq, propagate]

/-- The hook run by the TerminationHookHarness also sees the thrown value
unchanged after unwinding. -/
theorem stubHarnessObs_throw (disp : Signal → Disposition) (d : Nat) (t : Thrown) :
    stubHarnessObs disp (SubBehavior.throwsAt d t)
      = stubHarnessObs disp (SubBehavior.throwsAt 0 t) := by
  simp [stubHarnessObs, propagate_eq, propagate]

/-- C1: a submission whose first uncaught escaping failure is `std::bad_alloc`
(or an exception derived from it) is classified as resource exhaustion by
both harnesses: under the default signal dispositions the process terminates
via `SIGUSR1`, regardless of the call depth at which the value was thrown. -/
theorem bad_alloc_raises_sigusr1 (d : Nat) (c : ExcClass) (io : IOState)
    (h : c.derivesBadAlloc = true) :
    judgeMainObs defaultDisp io (SubBehavior.throwsAt d (Thrown.excObj c))
      = ([Signal.SIGUSR1], Termination.killedBy Signal.SIGUSR1) ∧
    stubHarnessObs defaultDisp (SubBehavior.throwsAt d (Thrown.excObj c))
      = ([Signal.SIGUSR1], Termination.killedBy Signal.SIGUSR1) := by
  constructor
  · simp [judgeMainObs, judge_main, propagate_eq, catchesBadAlloc, h,
      raiseCall, defaultDisp, mainTermination]
  · simp [stubHarnessObs, jutge__stub__on_terminate, propagate_eq,
      catchesBadAlloc, h, raiseCall, defaultDisp]

theorem bad_alloc_raises_sigusr1_witness :
    (ExcClass.mk true true).derivesBadAlloc = true ∧
    (judgeMainObs defaultDisp initialIOState
        (SubBehavior.throwsAt 5 (Thrown.excObj ⟨true, true⟩))
      = ([Signal.SIGUSR1], Termination.killedBy Signal.SIGUSR1) ∧
     stubHarnessObs defaultDisp (SubBehavior.throwsAt 5 (Thrown.excObj ⟨true, true⟩))
      = ([Signal.SIGUSR1], Termination.killedBy Signal.SIGUSR1)) :=
  ⟨rfl, bad_alloc_raises_sigusr1 5 ⟨true, true⟩ initialIOState rfl⟩

/-- C2: an uncaught escaping failure that is not resource exhaustion — a
`std::exception` not derived from `bad_alloc`, an exception object outside
the `std::exception` hierarchy, or a non-class value such as `throw 42;` —
makes both harnesses raise `SIGUSR2` under the default dispositions; no such
failure is silently ignored. -/
theorem other_failure_raises_sigusr2 (d : Nat) (t : Thrown) (io : IOState)
    (h : catchesBadAlloc t = false) :
    judgeMainObs defaultDisp io (SubBehavior.throwsAt d t)
      = ([Signal.SIGUSR2], Termination.killedBy Signal.SIGUSR2) ∧
    stubHarnessObs defaultDisp (SubBehavior.throwsAt d t)
      = ([Signal.SIGUSR2], Termination.killedBy Signal.SIGUSR2) := by
  constructor
  · cases hs : catchesStdException t <;>
      simp [judgeMainObs, judge_main, propagate_eq, h, hs,
        raiseCall, defaultDisp, mainTermination]
  · cases hs : catchesStdException t <;>
      simp [stubHarnessObs, jutge__stub__on_terminate, propagate_eq, h, hs,
        raiseCall, defaultDisp]

theorem other_failure_raises_sigusr2_witness :
    catchesBadAlloc (Thrown.scalar 42) = false ∧
    (judgeMainObs defaultDisp initialIOState (SubBehavior.throwsAt 3 (Thrown.scalar 42))
      = ([Signal.SIGUSR2], Termination.killedBy Signal.SIGUSR2) ∧
     stubHarnessObs defaultDisp (SubBehavior.throwsAt 3 (Thrown.scalar 42))
      = ([Signal.SIGUSR2], Termination.killedBy Signal.SIGUSR2)) :=
  ⟨rfl, other_failure_raises_sigusr2 3 (Thrown.scalar 42) initialIOState rfl⟩

/-- C3: when the renamed entry point `main__2` returns normally with value
`v`, the EntryRedirectHarness's `main` returns `v` unchanged, so the process
exits with status `v` — under every signal disposition. -/
theorem normal_return_propagates (disp : Signal → Disposition) (io : IOState)
    (v : Int) :
    judge_main disp io (SubBehavior.returns v)
      = (ioSetup io, [], MainResult.returned v) ∧
    judgeMainObs disp io (SubBehavior.returns v) = ([], Termination.exited v) := by
  exact ⟨rfl, rfl⟩

/-- C4 counterexample: with `SIGUSR1` ignored, a submission throwing
`bad_alloc` makes `main` raise a signal and then *return to the loader* with
the implicit `return 0` at the end of `main` — the EntryRedirectHarness has
no explicit halt after signaling, contradicting the claim that control never
returns from `main`. -/
theorem entry_redirect_no_halt_counterexample :
    (judge_main ignoreAll initialIOState (SubBehavior.throwsAt 0 badAllocExc)).2.1
      ≠ [] ∧
    (judge_main ignoreAll initialIOState (SubBehavior.throwsAt 0 badAllocExc)).2.2
      = MainResult.returned 0 := by
  constructor
  · simp [judge_main, propagate, badAllocExc, catchesBadAlloc, raiseCall, ignoreAll]
  · simp [judge_main, propagate, badAllocExc, catchesBadAlloc, raiseCall, ignoreAll]

/-- C4 amended: after raising a signal in a catch branch the
EntryRedirectHarness raises no further signal; if the raised signal
terminates the process, control never returns from `main`, but if `raise()`
returns, `main` falls off its end and returns exit code `0` to the loader —
there is no explicit halt after signaling. -/
theorem entry_redirect_post_raise (disp : Signal → Disposition) (io : IOState)
    (d : Nat) (t : Thrown) :
    judge_main disp io (SubBehavior.throwsAt d t)
      = (ioSetup io, [judgeMainClassify t],
         match disp (judgeMainClassify t) with
         | Disposition.fatal => MainResult.killed (judgeMainClassify t)
         | Disposition.ignored => MainResult.returned 0) := by
  cases hb : catchesBadAlloc t
  · cases hs : catchesStdException t
    · cases hd : disp Signal.SIGUSR2 <;>
        simp [judge_main, propagate_eq, judgeMainClassify, hb, hs, raiseCall, hd]
    · cases hd : disp Signal.SIGUSR2 <;>
        simp [judge_main, propagate_eq, judgeMainClassify, hb, hs, raiseCall, hd]
  · cases hd : disp Signal.SIGUSR1 <;>
      simp [judge_main, propagate_eq, judgeMainClassify, hb, raiseCall, hd]

/-- C5: the terminate hook never returns to its caller: on every invocation,
under every signal disposition, it ends the process — either a raised signal
is fatal, or control reaches the unconditional `std::_Exit(0)`. -/
theorem terminate_hook_never_returns (disp : Signal → Disposition)
    (cur : Option Thrown) :
    ∃ term, (jutge__stub__on_terminate disp cur).2 = HookResult.processEnded term ∧
      (term = Termination.exited 0 ∨ ∃ s, term = Termination.killedBy s) := by
  cases cur with
  | none => exact ⟨Termination.exited 0, rfl, Or.inl rfl⟩
  | some exc =>
      cases hb : catchesBadAlloc exc
      · cases hs : catchesStdException exc
        · cases hd : disp Signal.SIGUSR2
          · exact ⟨Termination.killedBy Signal.SIGUSR2,
              by simp [jutge__stub__on_terminate, hb, hs, raiseCall, hd],
              Or.inr ⟨Signal.SIGUSR2, rfl⟩⟩
          · exact ⟨Termination.exited 0,
              by simp [jutge__stub__on_terminate, hb, hs, raiseCall, hd],
              Or.inl rfl⟩
        · cases hd : disp Signal.SIGUSR2
          · exact ⟨Termination.killedBy Signal.SIGUSR2,
              by simp [jutge__stub__on_terminate, hb, hs, raiseCall, hd],
              Or.inr ⟨Signal.SIGUSR2, rfl⟩⟩
          · exact ⟨Termination.exited 0,
              by simp [jutge__stub__on_terminate, hb, hs, raiseCall, hd],
              Or.inl rfl⟩
      · cases hd : disp Signal.SIGUSR1
        · exact ⟨Termination.killedBy Signal.SIGUSR1,
            by simp [jutge__stub__on_terminate, hb, raiseCall, hd],
            Or.inr ⟨Signal.SIGUSR1, rfl⟩⟩
        · exact ⟨Termination.exited 0,
            by simp [jutge__stub__on_terminate, hb, raiseCall, hd],
            Or.inl rfl⟩

/-- C6: when the terminate hook is invoked with no exception in flight
(`std::current_exception()` is null), it raises no signal and terminates the
process quietly with exit status `0`, under every signal disposition. -/
theorem hook_quiet_exit_without_exception (disp : Signal → Disposition) :
    jutge__stub__on_terminate disp none
      = ([], HookResult.processEnded (Termination.exited 0)) := rfl

/-- C7: a single execution under either harness observes at most one
termination event: at most one signal is ever raised (under every
disposition), and under the default dispositions the run either raises no
signal and exits normally, or raises exactly one signal and is terminated by
that very signal — never more than one event from
{normal exit, signal A, signal B}. -/
theorem single_termination_event (disp : Signal → Disposition) (io : IOState)
    (beh : SubBehavior) :
    (judge_main disp io beh).2.1.length ≤ 1 ∧
    (stubHarnessObs disp beh).1.length ≤ 1 ∧
    singleTermEvent (judgeMainObs defaultDisp io beh) ∧
    singleTermEvent (stubHarnessObs defaultDisp beh) := by
  cases beh with
  | returns v =>
      refine ⟨by simp [judge_main], by simp [stubHarnessObs], ?_, ?_⟩
      · exact Or.inl ⟨rfl, v, rfl⟩
      · exact Or.inl ⟨rfl, v, rfl⟩
  | throwsAt d t =>
      cases hb : catchesBadAlloc t
      · cases hs : catchesStdException t
        · refine ⟨?_, ?_, ?_, ?_⟩
          · cases hd : disp Signal.SIGUSR2 <;>
              simp [judge_main, propagate_eq, hb, hs, raiseCall, hd]
          · cases hd : disp Signal.SIGUSR2 <;>
              simp [stubHarnessObs, jutge__stub__on_terminate, propagate_eq,
                hb, hs, raiseCall, hd]
          · exact Or.inr ⟨Signal.SIGUSR2,
              by simp [judgeMainObs, judge_main, propagate_eq, hb, hs,
                raiseCall, defaultDisp, mainTermination],
              by simp [judgeMainObs, judge_main, propagate_eq, hb, hs,
                raiseCall, defaultDisp, mainTermination]⟩
          · exact Or.inr ⟨Signal.SIGUSR2,
              by simp [stubHarnessObs, jutge__stub__on_terminate, propagate_eq,
                hb, hs, raiseCall, defaultDisp],
              by simp [stubHarnessObs, jutge__stub__on_terminate, propagate_eq,
                hb, hs, raiseCall, defaultDisp]⟩
        · refine ⟨?_, ?_, ?_, ?_⟩
          · cases hd : disp Signal.SIGUSR2 <;>
              simp [judge_main, propagate_eq, hb, hs, raiseCall, hd]
          · cases hd : disp Signal.SIGUSR2 <;>
              simp [stubHarnessObs, jutge__stub__on_terminate, propagate_eq,
                hb, hs, raiseCall, hd]
          · exact Or.inr ⟨Signal.SIGUSR2,
              by simp [judgeMainObs, judge_main, propagate_eq, hb, hs,
                raiseCall, defaultDisp, mainTermination],
              by simp [judgeMainObs, judge_main, propagate_eq, hb, hs,
                raiseCall, defaultDisp, mainTermination]⟩
          · exact Or.inr ⟨Signal.SIGUSR2,
              by simp [stubHarnessObs, jutge__stub__on_terminate, propagate_eq,
                hb, hs, raiseCall, defaultDisp],
              by simp [stubHarnessObs, jutge__stub__on_terminate, propagate_eq,
                hb, hs, raiseCall, defaultDisp]⟩
      · refine ⟨?_, ?_, ?_, ?_⟩
        · cases hd : disp Signal.SIGUSR1 <;>
            simp [judge_main, propagate_eq, hb, raiseCall, hd]
        · cases hd : disp Signal.SIGUSR1 <;>
            simp [stubHarnessObs, jutge__stub__on_terminate, propagate_eq,
              hb, raiseCall, hd]
        · exact Or.inr ⟨Signal.SIGUSR1,
            by simp [judgeMainObs, judge_main, propagate_eq, hb,
              raiseCall, defaultDisp, mainTermination],
            by simp [judgeMainObs, judge_main, propagate_eq, hb,
              raiseCall, defaultDisp, mainTermination]⟩
        · exact Or.inr ⟨Signal.SIGUSR1,
            by simp [stubHarnessObs, jutge__stub__on_terminate, propagate_eq,
              hb, raiseCall, defaultDisp],
            by simp [stubHarnessObs, jutge__stub__on_terminate, propagate_eq,
              hb, raiseCall, defaultDisp]⟩

/-- C8: the two harnesses implement the same failure-classification mapping:
the catch cascade of `main` and the rethrow-and-catch cascade of the
terminate hook select the same signal for every propagating failure, and the
signal actually raised by either harness on a run is exactly that
classification, independent of the call depth by which the failure escaped. -/
theorem classifiers_agree (disp : Signal → Disposition) (io : IOState)
    (d₁ d₂ : Nat) (t : Thrown) :
    judgeMainClassify t = stubClassify t ∧
    (judge_main disp io (SubBehavior.throwsAt d₁ t)).2.1 = [judgeMainClassify t] ∧
    (stubHarnessObs disp (SubBehavior.throwsAt d₂ t)).1 = [stubClassify t] := by
  refine ⟨rfl, ?_, ?_⟩
  · cases hb : catchesBadAlloc t
    · cases hs : catchesStdException t <;>
        cases hd : disp Signal.SIGUSR2 <;>
          simp [judge_main, judgeMainClassify, propagate_eq, hb, hs, raiseCall, hd]
    · cases hd : disp Signal.SIGUSR1 <;>
        simp [judge_main, judgeMainClassify, propagate_eq, hb, raiseCall, hd]
  · cases hb : catchesBadAlloc t
    · cases hs : catchesStdException t <;>
        cases hd : disp Signal.SIGUSR2 <;>
          simp [stubHarnessObs, jutge__stub__on_terminate, stubClassify,
            propagate_eq, hb, hs, raiseCall, hd]
    · cases hd : disp Signal.SIGUSR1 <;>
        simp [stubHarnessObs, jutge__stub__on_terminate, stubClassify,
          propagate_eq, hb, raiseCall, hd]

/-- C9: the I/O desynchronization configuration is idempotent: applying it
`n` times, for any `n ≥ 1`, leaves the stream state exactly as one
application does. -/
theorem io_config_idempotent (n : Nat) (s : IOState) (h : 1 ≤ n) :
    ioSetup^[n] s = ioSetup s := by
  obtain ⟨m, rfl⟩ : ∃ m, n = m + 1 := ⟨n - 1, by omega⟩
  induction m with
  | zero => rfl
  | succ k ih =>
      rw [Function.iterate_succ_apply', ih (by omega)]
      rfl

theorem io_config_idempotent_witness :
    1 ≤ 3 ∧ ioSetup^[3] initialIOState = ioSetup initialIOState :=
  ⟨by decide, io_config_idempotent 3 initialIOState (by decide)⟩

/-- C10: in the TerminationHookHarness, when the raised classification signal
does not terminate the process (its disposition lets `raise` return), the
hook falls through to `std::_Exit(0)`: the process reports exit status `0`,
the same status as the quiet defensive exit taken when no exception is in
flight. -/
theorem hook_ignored_signal_exits_zero (disp : Signal → Disposition)
    (t : Thrown) (h : disp (stubClassify t) = Disposition.ignored) :
    jutge__stub__on_terminate disp (some t)
      = ([stubClassify t], HookResult.processEnded (Termination.exited 0)) ∧
    jutge__stub__on_terminate disp none
      = ([], HookResult.processEnded (Termination.exited 0)) := by
  refine ⟨?_, rfl⟩
  cases hb : catchesBadAlloc t
  · cases hs : catchesStdException t <;>
      · rw [stubClassify] at h
        simp [hb, hs] at h
        simp [jutge__stub__on_terminate, stubClassify, hb, hs, raiseCall, h]
  · rw [stubClassify] at h
    simp [hb] at h
    simp [jutge__stub__on_terminate, stubClassify, hb, raiseCall, h]

theorem hook_ignored_signal_exits_zero_witness :
    ignoreAll (stubClassify (Thrown.scalar 7)) = Disposition.ignored ∧
    (jutge__stub__on_terminate ignoreAll (some (Thrown.scalar 7))
        = ([stubClassify (Thrown.scalar 7)],
           HookResult.processEnded (Termination.exited 0)) ∧
     jutge__stub__on_terminate ignoreAll none
        = ([], HookResult.processEnded (Termination.exited 0))) :=
  ⟨rfl, hook_ignored_signal_exits_zero ignoreAll (Thrown.scalar 7) rfl⟩
